import Mathlib

/-!
# Verification of newOppDash.py: period resolution and query/session control

Shallow embedding of the dashboard script `src/newOppDash.py`.

Instants are modelled as integers counting microseconds in the fixed reference
wall clock (US Eastern), with 0 at 1970-01-01 00:00:00.  Python `datetime`
values carrying the reference timezone are wall-clock instants here; `date`
values are day indices (days since 1970-01-01).  Calendar conversion uses the
standard civil-calendar bijection between day indices and (year, month, day)
triples, which is extensionally the conversion Python's `datetime` performs.

The Streamlit session is a record; the two query buttons ("Authenticate & Run
Query" and "Update Query") are step functions from the session state, the
sidebar inputs, and the outcome of the external Salesforce collaborator to a
new state plus the reports shown to the user.  The Salesforce client itself is
external, so its behaviour is an oracle parameter (`SFOutcome`): either an
exception during connection/query, or a list of returned rows.
-/

namespace NewOppDash

set_option maxHeartbeats 1000000

/-! ## Time model -/

/-- Microseconds per day. -/
def usPerDay : Int := 86400000000

/-- Day index (days since 1970-01-01) of an instant; Python floor semantics. -/
def dayIndex (t : Int) : Int := t / usPerDay

/-- Microsecond of day of an instant, in `[0, usPerDay)`. -/
def microOfDay (t : Int) : Int := t % usPerDay

/-- Python `datetime.weekday()`: Monday = 0.  Day 0 (1970-01-01) is a Thursday,
hence the offset 3. -/
def weekday (t : Int) : Int := (dayIndex t + 3) % 7

/-- `dt.replace(hour=0, minute=0, second=0, microsecond=0)`. -/
def midnightOf (t : Int) : Int := dayIndex t * usPerDay

/-! ## Civil calendar conversion (day index ↔ (year, month, day)) -/

/-- 400-year era containing a day index (eras are aligned to 0000-03-01). -/
def eraOfDay (z : Int) : Int := (z + 719468) / 146097

/-- Day of era, in `[0, 146096]`. -/
def doeOfDay (z : Int) : Int := z + 719468 - 146097 * eraOfDay z

/-- Year of era (March-based), in `[0, 399]`, from a day of era. -/
def yoeOfDoe (doe : Int) : Int :=
  (doe - doe / 1460 + doe / 36524 - doe / 146096) / 365

/-- Day of (March-based) year, in `[0, 365]`, from a day of era. -/
def doyOfDoe (doe : Int) : Int :=
  doe - (365 * yoeOfDoe doe + yoeOfDoe doe / 4 - yoeOfDoe doe / 100)

/-- March-based month index, in `[0, 11]` (0 = March, 11 = February). -/
def mpOfDoy (doy : Int) : Int := (5 * doy + 2) / 153

/-- Day index of a civil (year, month, day). -/
def daysFromCivil (y m d : Int) : Int :=
  let yy := if m ≤ 2 then y - 1 else y
  let era := yy / 400
  let yoe := yy - 400 * era
  let doy := (153 * (if 2 < m then m - 3 else m + 9) + 2) / 5 + d - 1
  let doe := 365 * yoe + yoe / 4 - yoe / 100 + doy
  146097 * era + doe - 719468

/-- Civil (year, month, day) of a day index. -/
def civilFromDays (z : Int) : Int × Int × Int :=
  let era := eraOfDay z
  let doe := doeOfDay z
  let yoe := yoeOfDoe doe
  let y := yoe + 400 * era
  let doy := doyOfDoe doe
  let mp := mpOfDoy doy
  let d := doy - (153 * mp + 2) / 5 + 1
  let m := if mp < 10 then mp + 3 else mp - 9
  (if m ≤ 2 then y + 1 else y, m, d)

/-- Calendar year of an instant (Python `dt.year`). -/
def yearOf (t : Int) : Int := (civilFromDays (dayIndex t)).1

/-- Calendar month of an instant (Python `dt.month`). -/
def monthOf (t : Int) : Int := (civilFromDays (dayIndex t)).2.1

/-- `datetime(y, m, d, h, mi, s, mu)` as an instant. -/
def timeOfDayMicro (h mi s mu : Int) : Int := ((h * 60 + mi) * 60 + s) * 1000000 + mu

/-- Construct the instant of a civil datetime. -/
def mkDT (y m d h mi s mu : Int) : Int :=
  daysFromCivil y m d * usPerDay + timeOfDayMicro h mi s mu

/-- `datetime.combine(date, datetime.min.time())`: midnight of a date. -/
def combineMin (d : Int) : Int := d * usPerDay + timeOfDayMicro 0 0 0 0

/-- `datetime.combine(date, datetime.max.time())`: 23:59:59.999999 of a date. -/
def combineMax (d : Int) : Int := d * usPerDay + timeOfDayMicro 23 59 59 999999

/-- Truncate an instant to whole seconds. -/
def secondFloor (t : Int) : Int := t - t % 1000000

/-! ## ISO rendering of instants

`datetime.isoformat()` of a reference-timezone-aware value.  The UTC offset
suffix is rendered as the reference zone's standard offset; the sub-second
part is omitted when the microsecond field is zero, as Python does. -/

/-- Left-pad the decimal rendering of a (non-negative) integer with zeros. -/
def padNum (w : Nat) (n : Int) : String :=
  let s := Nat.repr n.natAbs
  String.mk (List.replicate (w - s.length) '0') ++ s

/-- `dt.isoformat()` for a reference-zone instant. -/
def isoformat (t : Int) : String :=
  let c := civilFromDays (dayIndex t)
  let micro := microOfDay t
  let us := micro % 1000000
  padNum 4 c.1 ++ "-" ++ padNum 2 c.2.1 ++ "-" ++ padNum 2 c.2.2 ++ "T" ++
    padNum 2 (micro / 3600000000) ++ ":" ++ padNum 2 (micro / 60000000 % 60) ++ ":" ++
    padNum 2 (micro / 1000000 % 60) ++
    (if us = 0 then "" else "." ++ padNum 6 us) ++ "-05:00"

/-! ## Period selection and resolution (`get_date_range`) -/

/-- The sidebar period keys: "Week", "Month", "Quarter", "7", "30", "90",
"1095", "custom" (the keys of `date_filter_options`). -/
inductive Selector
  | week
  | month
  | quarter
  | d7
  | d30
  | d90
  | d1095
  | custom
deriving DecidableEq

/-- Argument of `get_date_range`: either a period key string or a
`(start_date, end_date)` tuple of dates (day indices). -/
inductive PeriodArg
  | preset (key : Selector)
  | customRange (startDate endDate : Int)
deriving DecidableEq

/-- `dt.replace(day=1)`: keep year, month and time of day, set the day to 1. -/
def replaceDay1 (t : Int) : Int :=
  daysFromCivil (civilFromDays (dayIndex t)).1 (civilFromDays (dayIndex t)).2.1 1 * usPerDay +
    microOfDay t

/-- Start instant of quarter `q` of civil year `y` (lines 50): the first day of
the quarter's first month. -/
def quarterStart (y q : Int) : Int := mkDT y (3 * q - 2) 1 0 0 0 0

/-- End instant of quarter `q` of civil year `y` (lines 51-54): one second
before the next quarter's first day, with Q4 special-cased to Dec 31
23:59:59 to avoid month overflow. -/
def quarterEnd (y q : Int) : Int :=
  if q < 4 then mkDT y (3 * q + 1) 1 0 0 0 0 - 1000000 else mkDT y 12 31 23 59 59 0

/-- `get_date_range(period)` (lines 38-75) with the script's
`get_eastern_time_now()` passed explicitly as `today`.  Returns
`(start_iso, end_iso, start, end)`, or `none` for the `raise ValueError`
branch (reached when the argument is neither a known key nor a tuple, e.g.
the literal key "custom"). -/
def get_date_range (period : PeriodArg) (today : Int) :
    Option (String × String × Int × Int) :=
  match period with
  | .preset .week =>
      let start_of_period := midnightOf (today - weekday today * usPerDay)
      let end_of_period := start_of_period + (6 * usPerDay + timeOfDayMicro 23 59 59 0)
      some (isoformat start_of_period, isoformat end_of_period, start_of_period, end_of_period)
  | .preset .month =>
      let start_of_period := mkDT (yearOf today) (monthOf today) 1 0 0 0 0
      let end_of_period := replaceDay1 (start_of_period + 31 * usPerDay) - 1000000
      some (isoformat start_of_period, isoformat end_of_period, start_of_period, end_of_period)
  | .preset .quarter =>
      let quarter := (monthOf today - 1) / 3 + 1
      let start_of_period := quarterStart (yearOf today) quarter
      let end_of_period := quarterEnd (yearOf today) quarter
      some (isoformat start_of_period, isoformat end_of_period, start_of_period, end_of_period)
  | .preset .d7 =>
      some (isoformat (today - 7 * usPerDay), isoformat today, today - 7 * usPerDay, today)
  | .preset .d30 =>
      some (isoformat (today - 30 * usPerDay), isoformat today, today - 30 * usPerDay, today)
  | .preset .d90 =>
      some (isoformat (today - 90 * usPerDay), isoformat today, today - 90 * usPerDay, today)
  | .preset .d1095 =>
      some (isoformat (today - 1095 * usPerDay), isoformat today, today - 1095 * usPerDay, today)
  | .preset .custom => none
  | .customRange start_date end_date =>
      let start_of_period := combineMin start_date
      let end_of_period := combineMax end_date
      some (isoformat start_of_period, isoformat end_of_period, start_of_period, end_of_period)

/-- Resolved start instant of a `get_date_range` result. -/
def resolvedStart (r : Option (String × String × Int × Int)) : Option Int :=
  r.map fun x => x.2.2.1

/-- Resolved end instant of a `get_date_range` result. -/
def resolvedEnd (r : Option (String × String × Int × Int)) : Option Int :=
  r.map fun x => x.2.2.2

/-! ## The Salesforce fetch wrapper -/

/-- One Opportunity row as selected by the SOQL query. -/
structure OppRecord where
  createdDate : Int
  new_Business_or_Renewal : String
  name : String
  id : String
deriving DecidableEq

/-- Behaviour of the external Salesforce collaborator on one call: either an
exception raised during connection or query execution, or the returned rows. -/
inductive SFOutcome
  | failure (msg : String)
  | rows (records : List OppRecord)
deriving DecidableEq

/-- The SOQL query template (lines 94-99). -/
def soql_query (start_date end_date : String) : String :=
  "\n            SELECT CreatedDate, New_Business_or_Renewal__c, Name, Id\n            FROM Opportunity\n            WHERE CreatedDate >= " ++
    start_date ++ " AND CreatedDate <= " ++ end_date ++
    "\n            AND New_Business_or_Renewal__c IN (\x27Personal Lines - New Business\x27, \x27Commercial Lines - New Business\x27)\n        "

/-- `connect_to_salesforce_and_run_query` (lines 78-121).  The whole body is
inside `try/except`, so the function always returns a pair: the rows (empty on
failure or empty result) and the query text (`None` exactly when an exception
was caught).  The callers in scope always pass both dates, so the
default-range branch for missing dates is not modelled. -/
def connect_to_salesforce_and_run_query (outcome : SFOutcome)
    (start_date end_date : String) : List OppRecord × Option String :=
  match outcome with
  | .failure _ => ([], none)
  | .rows records =>
      if records = [] then ([], some (soql_query start_date end_date))
      else (records, some (soql_query start_date end_date))

/-! ## Session state and the two button handlers -/

/-- The Streamlit session state (lines 128-136). -/
structure SessionState where
  authenticated : Bool
  df : List OppRecord
  query : Option String
  total_count : Nat
  selected_period : Selector
  period_start : Option Int
  period_end : Option Int
  date_filter : Selector
deriving DecidableEq

/-- Initial session state (lines 128-136). -/
def initState : SessionState :=
  { authenticated := false
    df := []
    query := none
    total_count := 0
    selected_period := .week
    period_start := none
    period_end := none
    date_filter := .d90 }

/-- The user-visible messages relevant to the fetch cycle: the sidebar
"Invalid date range" error and the "No data found." banner. -/
inductive Report
  | invalidDateRange
  | noData
deriving DecidableEq

/-- Result of one interaction cycle: a new state, whether the remote fetch was
invoked, and the reports shown — or an uncaught exception (the `ValueError`
from `get_date_range`), which aborts the handler before any state mutation. -/
inductive StepOut
  | ok (state : SessionState) (fetched : Bool) (reports : List Report)
  | raised (reports : List Report)
deriving DecidableEq

/-- Body of the "Authenticate & Run Query" button (lines 178-203).  On an
invalid custom range it reports the error and falls back to the "90" preset
(line 187).  Date-picker values are always present, so the Python truthiness
checks on them are constant. -/
def authRunQuery (st : SessionState) (sel : Selector)
    (custom_start_date custom_end_date : Int) (now : Int) (outcome : SFOutcome) : StepOut :=
  let choice :=
    if sel = Selector.custom then
      if custom_start_date ≤ custom_end_date then
        (([] : List Report), get_date_range (.customRange custom_start_date custom_end_date) now)
      else ([Report.invalidDateRange], get_date_range (.preset .d90) now)
    else (([] : List Report), get_date_range (.preset sel) now)
  match choice with
  | (pre, none) => .raised pre
  | (pre, some (start_date, end_date, period_start, period_end)) =>
      let res := connect_to_salesforce_and_run_query outcome start_date end_date
      if res.1 = [] then .ok st true (pre ++ [Report.noData])
      else
        .ok { st with
              authenticated := true
              df := res.1
              query := res.2
              total_count := res.1.length
              selected_period := sel
              period_start := some period_start
              period_end := some period_end } true pre

/-- Body of the "Update Query" button (lines 209-230).  On an invalid custom
range it reports the error and falls back to the cached selector (line 217);
if the cached selector is itself "custom", `get_date_range("custom")` raises. -/
def updateQuery (st : SessionState) (sel : Selector)
    (custom_start_date custom_end_date : Int) (now : Int) (outcome : SFOutcome) : StepOut :=
  let choice :=
    if sel = Selector.custom then
      if custom_start_date ≤ custom_end_date then
        (([] : List Report), get_date_range (.customRange custom_start_date custom_end_date) now)
      else ([Report.invalidDateRange], get_date_range (.preset st.selected_period) now)
    else (([] : List Report), get_date_range (.preset sel) now)
  match choice with
  | (pre, none) => .raised pre
  | (pre, some (start_date, end_date, period_start, period_end)) =>
      let res := connect_to_salesforce_and_run_query outcome start_date end_date
      if res.1 = [] then .ok st true (pre ++ [Report.noData])
      else
        .ok { st with
              df := res.1
              query := res.2
              total_count := res.1.length
              selected_period := sel
              period_start := some period_start
              period_end := some period_end } true pre

/-- One user-driven interaction cycle (the controller contract `ensureFresh`).
The user presses whichever action button the sidebar offers: unauthenticated
sessions offer "Authenticate & Run Query" (line 178); authenticated sessions
offer "Update Query" only when the selector changed or is "custom" (line 208),
otherwise the cycle is a no-op with no fetch. -/
def ensureFresh (st : SessionState) (sel : Selector)
    (custom_start_date custom_end_date : Int) (now : Int) (outcome : SFOutcome) : StepOut :=
  if st.authenticated = false then
    authRunQuery st sel custom_start_date custom_end_date now outcome
  else
    if sel ≠ st.selected_period ∨ sel = Selector.custom then
      updateQuery st sel custom_start_date custom_end_date now outcome
    else .ok st false []

/-- Whether the cycle invoked the remote fetch. -/
def stepFetched : StepOut → Bool
  | .ok _ fetched _ => fetched
  | .raised _ => false

/-- The reports shown during the cycle. -/
def stepReports : StepOut → List Report
  | .ok _ _ reports => reports
  | .raised reports => reports

/-- The authenticated flag after the cycle (`none` when the cycle raised). -/
def stepAuth : StepOut → Option Bool
  | .ok state _ _ => some state.authenticated
  | .raised _ => none

/-- The session state after the cycle (`none` when the cycle raised). -/
def stepState : StepOut → Option SessionState
  | .ok state _ _ => some state
  | .raised _ => none

/-! ## Civil conversion lemmas -/

theorem doe_range (z : Int) : 0 ≤ doeOfDay z ∧ doeOfDay z < 146097 := by
  unfold doeOfDay eraOfDay; omega

theorem yoe_range (doe : Int) (h0 : 0 ≤ doe) (h1 : doe < 146097) :
    0 ≤ yoeOfDoe doe ∧ yoeOfDoe doe ≤ 399 := by
  unfold yoeOfDoe; omega

theorem div_collapse4 (n : Int) : n / 365 / 4 = n / 1460 := by omega

theorem div_collapse100 (n : Int) : n / 365 / 100 = n / 36500 := by omega

theorem q4_bounds (doe : Int) (h0 : 0 ≤ doe) (h1 : doe < 146097) :
    doe / 1460 - 1 ≤ (doe - doe / 1460 + doe / 36524 - doe / 146096) / 1460 ∧
    (doe - doe / 1460 + doe / 36524 - doe / 146096) / 1460 ≤ doe / 1460 := by
  omega

theorem q100_eq (doe : Int) (h0 : 0 ≤ doe) (h1 : doe < 146097) :
    (doe - doe / 1460 + doe / 36524 - doe / 146096) / 36500 = doe / 36524 - doe / 146096 := by
  have hc : doe / 36524 = 0 ∨ doe / 36524 = 1 ∨ doe / 36524 = 2 ∨ doe / 36524 = 3 ∨
      doe / 36524 = 4 := by omega
  have hd : doe / 146096 = 0 ∨ doe / 146096 = 1 := by omega
  rcases hc with h | h | h | h | h <;> rcases hd with h' | h' <;> rw [h, h'] <;> omega

theorem doy_range (doe : Int) (h0 : 0 ≤ doe) (h1 : doe < 146097) :
    0 ≤ doyOfDoe doe ∧ doyOfDoe doe ≤ 365 := by
  have h4 := div_collapse4 (doe - doe / 1460 + doe / 36524 - doe / 146096)
  have h100 := div_collapse100 (doe - doe / 1460 + doe / 36524 - doe / 146096)
  have hq4 := q4_bounds doe h0 h1
  have hq100 := q100_eq doe h0 h1
  unfold doyOfDoe yoeOfDoe
  omega

theorem mp_range (doy : Int) (h0 : 0 ≤ doy) (h1 : doy ≤ 365) :
    0 ≤ mpOfDoy doy ∧ mpOfDoy doy ≤ 11 := by
  unfold mpOfDoy; omega

theorem d_range (doy : Int) (h0 : 0 ≤ doy) (h1 : doy ≤ 365) :
    1 ≤ doy - (153 * mpOfDoy doy + 2) / 5 + 1 ∧
    doy - (153 * mpOfDoy doy + 2) / 5 + 1 ≤ 31 := by
  unfold mpOfDoy; omega

/-- Decomposition of a day of era into year-of-era days plus day of year. -/
theorem doe_decomp (doe : Int) :
    365 * yoeOfDoe doe + yoeOfDoe doe / 4 - yoeOfDoe doe / 100 + doyOfDoe doe = doe := by
  unfold doyOfDoe; ring

/-- Assembly lemma: `daysFromCivil` applied to the pieces produced by
`civilFromDays` recovers the day index. -/
theorem civil_assemble (era yoe doy mp d z : Int)
    (hyoe0 : 0 ≤ yoe) (hyoe1 : yoe ≤ 399)
    (hmp0 : 0 ≤ mp) (hmp1 : mp ≤ 11)
    (hdoe : 146097 * era + (365 * yoe + yoe / 4 - yoe / 100 + doy) - 719468 = z)
    (hd : d = doy - (153 * mp + 2) / 5 + 1) :
    daysFromCivil
      (if (if mp < 10 then mp + 3 else mp - 9) ≤ 2 then yoe + 400 * era + 1 else yoe + 400 * era)
      (if mp < 10 then mp + 3 else mp - 9) d = z := by
  unfold daysFromCivil
  by_cases h : mp < 10
  · simp only [if_pos h]
    have hm2 : ¬ (mp + 3 ≤ 2) := by omega
    have hm2' : 2 < mp + 3 := by omega
    simp only [if_neg hm2, if_pos hm2']
    have he : (yoe + 400 * era) / 400 = era := by omega
    rw [he]
    omega
  · simp only [if_neg h]
    have hm2 : mp - 9 ≤ 2 := by omega
    have hm2' : ¬ (2 < mp - 9) := by omega
    simp only [if_pos hm2, if_neg hm2']
    have he : (yoe + 400 * era + 1 - 1) / 400 = era := by omega
    rw [he]
    omega

/-- The civil conversion is a section of `daysFromCivil`. -/
theorem civil_roundtrip (z : Int) :
    daysFromCivil (civilFromDays z).1 (civilFromDays z).2.1 (civilFromDays z).2.2 = z := by
  obtain ⟨h0, h1⟩ := doe_range z
  obtain ⟨h2, h3⟩ := yoe_range _ h0 h1
  obtain ⟨h4, h5⟩ := doy_range _ h0 h1
  obtain ⟨h6, h7⟩ := mp_range _ h4 h5
  have hdec := doe_decomp (doeOfDay z)
  have key := civil_assemble (eraOfDay z) (yoeOfDoe (doeOfDay z)) (doyOfDoe (doeOfDay z))
    (mpOfDoy (doyOfDoe (doeOfDay z)))
    (doyOfDoe (doeOfDay z) - (153 * mpOfDoy (doyOfDoe (doeOfDay z)) + 2) / 5 + 1)
    z h2 h3 h6 h7 (by unfold doeOfDay at hdec ⊢; omega) rfl
  simpa [civilFromDays] using key

/-- The month produced by the civil conversion is in `[1, 12]`. -/
theorem civil_month_range (z : Int) :
    1 ≤ (civilFromDays z).2.1 ∧ (civilFromDays z).2.1 ≤ 12 := by
  obtain ⟨h0, h1⟩ := doe_range z
  obtain ⟨h4, h5⟩ := doy_range _ h0 h1
  obtain ⟨h6, h7⟩ := mp_range _ h4 h5
  simp only [civilFromDays]
  split <;> omega

/-- The day of month produced by the civil conversion is in `[1, 31]`. -/
theorem civil_day_range (z : Int) :
    1 ≤ (civilFromDays z).2.2 ∧ (civilFromDays z).2.2 ≤ 31 := by
  obtain ⟨h0, h1⟩ := doe_range z
  obtain ⟨h4, h5⟩ := doy_range _ h0 h1
  obtain ⟨h8, h9⟩ := d_range _ h4 h5
  simp only [civilFromDays]
  exact ⟨h8, h9⟩

/-- Core quarter positioning: in terms of the pieces of `civilFromDays z`, the
day index `z` lies within the quarter of the civil year it is assigned to. -/
theorem quarter_pos_core (era yoe doy mp z : Int)
    (hyoe0 : 0 ≤ yoe) (hyoe1 : yoe ≤ 399)
    (hdoy0 : 0 ≤ doy) (hdoy1 : doy ≤ 365)
    (hmp : mp = (5 * doy + 2) / 153)
    (hz : z = 146097 * era + (365 * yoe + yoe / 4 - yoe / 100 + doy) - 719468) :
    daysFromCivil
        (if (if mp < 10 then mp + 3 else mp - 9) ≤ 2 then yoe + 400 * era + 1
         else yoe + 400 * era)
        (3 * (((if mp < 10 then mp + 3 else mp - 9) - 1) / 3 + 1) - 2) 1 ≤ z ∧
    ((((if mp < 10 then mp + 3 else mp - 9) - 1) / 3 + 1) < 4 →
      z < daysFromCivil
        (if (if mp < 10 then mp + 3 else mp - 9) ≤ 2 then yoe + 400 * era + 1
         else yoe + 400 * era)
        (3 * (((if mp < 10 then mp + 3 else mp - 9) - 1) / 3 + 1) + 1) 1) ∧
    ((((if mp < 10 then mp + 3 else mp - 9) - 1) / 3 + 1) = 4 →
      z ≤ daysFromCivil
        (if (if mp < 10 then mp + 3 else mp - 9) ≤ 2 then yoe + 400 * era + 1
         else yoe + 400 * era) 12 31) := by
  have hmpr : mp = 0 ∨ mp = 1 ∨ mp = 2 ∨ mp = 3 ∨ mp = 4 ∨ mp = 5 ∨ mp = 6 ∨ mp = 7 ∨
      mp = 8 ∨ mp = 9 ∨ mp = 10 ∨ mp = 11 := by omega
  rcases hmpr with h | h | h | h | h | h | h | h | h | h | h | h <;>
    subst h <;>
    norm_num <;>
    unfold daysFromCivil <;>
    norm_num <;>
    omega

/-- Quarter boundary ordering and contiguity facts for a generic civil year. -/
theorem quarter_boundaries (y : Int) :
    daysFromCivil y 1 1 < daysFromCivil y 4 1 ∧
    daysFromCivil y 4 1 < daysFromCivil y 7 1 ∧
    daysFromCivil y 7 1 < daysFromCivil y 10 1 ∧
    daysFromCivil y 10 1 ≤ daysFromCivil y 12 31 ∧
    daysFromCivil y 12 31 + 1 = daysFromCivil (y + 1) 1 1 := by
  unfold daysFromCivil
  norm_num
  omega

/-- Day-level quarter membership for the civil conversion of a day index. -/
theorem quarter_day_pos (z : Int) :
    daysFromCivil (civilFromDays z).1 (3 * (((civilFromDays z).2.1 - 1) / 3 + 1) - 2) 1 ≤ z ∧
    ((((civilFromDays z).2.1 - 1) / 3 + 1) < 4 →
      z < daysFromCivil (civilFromDays z).1
            (3 * (((civilFromDays z).2.1 - 1) / 3 + 1) + 1) 1) ∧
    ((((civilFromDays z).2.1 - 1) / 3 + 1) = 4 →
      z ≤ daysFromCivil (civilFromDays z).1 12 31) := by
  obtain ⟨h0, h1⟩ := doe_range z
  obtain ⟨h2, h3⟩ := yoe_range _ h0 h1
  obtain ⟨h4, h5⟩ := doy_range _ h0 h1
  have hdec := doe_decomp (doeOfDay z)
  have key := quarter_pos_core (eraOfDay z) (yoeOfDoe (doeOfDay z)) (doyOfDoe (doeOfDay z))
    (mpOfDoy (doyOfDoe (doeOfDay z))) z h2 h3 h4 h5 rfl
    (by unfold doeOfDay at hdec ⊢; omega)
  simpa [civilFromDays] using key

/-! ## Claims -/

/-- C2 (confirmed): resolving `Custom(d1, d2)` fails (the InvalidDateRange
error is reported inline and the custom range is never resolved) exactly when
`d1 > d2`; when `d1 ≤ d2` the resolved start is exactly `d1` at 00:00:00 and
the resolved end is exactly `d2` at 23:59:59.999999 in the reference zone. -/
theorem c2_custom_resolution (d1 d2 now : Int) :
    get_date_range (.customRange d1 d2) now =
      some (isoformat (combineMin d1), isoformat (combineMax d2),
        combineMin d1, combineMax d2) ∧
    combineMin d1 = d1 * usPerDay + timeOfDayMicro 0 0 0 0 ∧
    combineMax d2 = d2 * usPerDay + timeOfDayMicro 23 59 59 999999 ∧
    (∀ st : SessionState, ∀ o : SFOutcome, st.authenticated = false →
      (Report.invalidDateRange ∈ stepReports (ensureFresh st Selector.custom d1 d2 now o) ↔
        d2 < d1)) := by
  refine ⟨rfl, rfl, rfl, ?_⟩
  intro st o hauth
  simp only [ensureFresh, hauth, reduceIte, authRunQuery, if_pos rfl]
  by_cases hle : d1 ≤ d2
  · rw [if_pos hle]
    simp only [get_date_range]
    cases o with
    | failure msg =>
        simp only [connect_to_salesforce_and_run_query, stepReports]
        simp
        omega
    | rows records =>
        by_cases hr : records = [] <;>
          simp only [connect_to_salesforce_and_run_query, hr, reduceIte, stepReports] <;>
          simp <;> omega
  · rw [if_neg hle]
    simp only [get_date_range]
    cases o with
    | failure msg =>
        simp only [connect_to_salesforce_and_run_query, stepReports]
        simp
        omega
    | rows records =>
        by_cases hr : records = [] <;>
          simp only [connect_to_salesforce_and_run_query, hr, reduceIte, stepReports] <;>
          simp <;> omega

/-- C2 witness at a concrete invalid range. -/
theorem c2_custom_resolution_witness :
    (Report.invalidDateRange ∈
      stepReports (ensureFresh initState Selector.custom 5 3 0 (.rows [])) ↔ (3 : Int) < 5) :=
  (c2_custom_resolution 5 3 0).2.2.2 initState (.rows []) rfl

/-- C3 (confirmed): resolving the LastNDays presets at reference instant `now`
gives start exactly `now - N` days (time of day preserved, no truncation to
midnight) and end exactly `now`, for N ∈ {7, 30, 90, 1095}. -/
theorem c3_lastNdays_exact (now : Int) :
    get_date_range (.preset .d7) now =
      some (isoformat (now - 7 * usPerDay), isoformat now, now - 7 * usPerDay, now) ∧
    get_date_range (.preset .d30) now =
      some (isoformat (now - 30 * usPerDay), isoformat now, now - 30 * usPerDay, now) ∧
    get_date_range (.preset .d90) now =
      some (isoformat (now - 90 * usPerDay), isoformat now, now - 90 * usPerDay, now) ∧
    get_date_range (.preset .d1095) now =
      some (isoformat (now - 1095 * usPerDay), isoformat now, now - 1095 * usPerDay, now) ∧
    (∀ k : Int, microOfDay (now - k * usPerDay) = microOfDay now) := by
  refine ⟨rfl, rfl, rfl, rfl, fun k => ?_⟩
  unfold microOfDay usPerDay
  omega

/-- C4 (confirmed): resolving CurrentWeek yields a start on a Monday at
00:00:00 — the most recent Monday not after `now` — and an end equal to the
start plus 6 days, 23 hours, 59 minutes, 59 seconds. -/
theorem c4_week_monday_start (now : Int) :
    ∃ s : Int,
      get_date_range (.preset .week) now =
        some (isoformat s, isoformat (s + (6 * usPerDay + timeOfDayMicro 23 59 59 0)), s,
          s + (6 * usPerDay + timeOfDayMicro 23 59 59 0)) ∧
      weekday s = 0 ∧ microOfDay s = 0 ∧ s ≤ now ∧ now - s < 7 * usPerDay := by
  refine ⟨midnightOf (now - weekday now * usPerDay), rfl, ?_, ?_, ?_, ?_⟩ <;>
    (simp only [weekday, midnightOf, microOfDay, dayIndex, usPerDay]; omega)

/-- C6 (confirmed): for every resolved period, the bound strings passed to the
fetch are exactly the ISO renderings of the resolved instants, and the query
text embeds them literally as bounds on CreatedDate with the record type
restricted to exactly the two fixed new-business categories. -/
theorem c6_query_template (p : PeriodArg) (now : Int) (s e : String) (ps pe : Int)
    (h : get_date_range p now = some (s, e, ps, pe)) :
    s = isoformat ps ∧ e = isoformat pe ∧
    soql_query s e =
      "\n            SELECT CreatedDate, New_Business_or_Renewal__c, Name, Id\n            FROM Opportunity\n            WHERE CreatedDate >= " ++
        s ++ " AND CreatedDate <= " ++ e ++
        "\n            AND New_Business_or_Renewal__c IN (\x27Personal Lines - New Business\x27, \x27Commercial Lines - New Business\x27)\n        " := by
  cases p with
  | preset key =>
      cases key
      case custom => exact absurd h (by simp [get_date_range])
      all_goals
        simp only [get_date_range, Option.some.injEq, Prod.mk.injEq] at h
      all_goals
        obtain ⟨hs, he', hps, hpe⟩ := h
      all_goals
        subst hps
      all_goals
        subst hpe
      all_goals
        exact ⟨hs.symm, he'.symm, rfl⟩
  | customRange a b =>
      simp only [get_date_range, Option.some.injEq, Prod.mk.injEq] at h
      obtain ⟨hs, he', hps, hpe⟩ := h
      subst hps
      subst hpe
      exact ⟨hs.symm, he'.symm, rfl⟩

/-- C6 witness at the Last-7-days preset resolved at the epoch. -/
theorem c6_query_template_witness :
    ("1969-12-25T00:00:00-05:00" = isoformat (-604800000000 : Int)) ∧
    ("1970-01-01T00:00:00-05:00" = isoformat (0 : Int)) :=
  ⟨(c6_query_template (.preset .d7) 0 "1969-12-25T00:00:00-05:00" "1970-01-01T00:00:00-05:00"
      (-604800000000) 0 (by decide)).1,
    (c6_query_template (.preset .d7) 0 "1969-12-25T00:00:00-05:00" "1970-01-01T00:00:00-05:00"
      (-604800000000) 0 (by decide)).2.1⟩

/-- C9 (confirmed): the fetch wrapper is total — every collaborator exception
becomes the pair (empty record set, no query text) — and the query text is
`none` exactly on a connection/query failure, while a genuinely empty result
keeps the query text, so the two failure kinds are distinguishable from the
returned value alone. -/
theorem c9_fetch_total_boundary (outcome : SFOutcome) (s e : String) :
    ((connect_to_salesforce_and_run_query outcome s e).2 = none ↔
      ∃ msg, outcome = SFOutcome.failure msg) ∧
    (∀ msg, outcome = SFOutcome.failure msg →
      connect_to_salesforce_and_run_query outcome s e = ([], none)) ∧
    (outcome = SFOutcome.rows [] →
      connect_to_salesforce_and_run_query outcome s e = ([], some (soql_query s e))) ∧
    (∀ records, outcome = SFOutcome.rows records →
      (connect_to_salesforce_and_run_query outcome s e).1 = records ∧
      (connect_to_salesforce_and_run_query outcome s e).2 = some (soql_query s e)) := by
  cases outcome with
  | failure msg => simp [connect_to_salesforce_and_run_query]
  | rows records =>
      by_cases hr : records = [] <;>
        simp [connect_to_salesforce_and_run_query, hr]

/-- C9 witness at a concrete failure outcome. -/
theorem c9_fetch_total_boundary_witness :
    connect_to_salesforce_and_run_query (SFOutcome.failure "x") "a" "b" = ([], none) :=
  (c9_fetch_total_boundary (SFOutcome.failure "x") "a" "b").2.1 "x" rfl

/-- C7 (confirmed): an authenticated session with an unchanged named-preset
selector performs no fetch on a further call; starting unauthenticated, two
calls with the same named preset and a non-empty first result issue exactly
one fetch (the second call is a no-op); the custom selector always permits a
re-fetch attempt on an explicit update, even with unchanged valid dates. -/
theorem c7_preset_idempotent_fetch :
    (∀ (st : SessionState) (sel : Selector) (cs ce now : Int) (o : SFOutcome),
      st.authenticated = true → sel = st.selected_period → sel ≠ Selector.custom →
      ensureFresh st sel cs ce now o = .ok st false []) ∧
    (∀ (st : SessionState) (sel : Selector) (cs ce now : Int) (records : List OppRecord)
        (cs' ce' now' : Int) (o' : SFOutcome),
      st.authenticated = false → sel ≠ Selector.custom → records ≠ [] →
      stepFetched (ensureFresh st sel cs ce now (.rows records)) = true ∧
      stepReports (ensureFresh st sel cs ce now (.rows records)) = [] ∧
      stepAuth (ensureFresh st sel cs ce now (.rows records)) = some true ∧
      (∀ st', stepState (ensureFresh st sel cs ce now (.rows records)) = some st' →
        st'.selected_period = sel ∧ st'.authenticated = true ∧
        ensureFresh st' sel cs' ce' now' o' = .ok st' false [])) ∧
    (∀ (st : SessionState) (cs ce now : Int) (o : SFOutcome),
      st.authenticated = true → cs ≤ ce →
      stepFetched (ensureFresh st Selector.custom cs ce now o) = true) := by
  refine ⟨?_, ?_, ?_⟩
  · intro st sel cs ce now o hauth hsel hc
    subst hsel
    simp [ensureFresh, hauth, hc]
  · intro st sel cs ce now records cs' ce' now' o' hauth hc hr
    cases sel
    case custom => exact absurd rfl hc
    all_goals
      simp [ensureFresh, hauth, authRunQuery, get_date_range,
        connect_to_salesforce_and_run_query, stepFetched, stepReports, stepAuth,
        stepState, hr]
  · intro st cs ce now o hauth hle
    cases o with
    | failure msg =>
        simp [ensureFresh, hauth, updateQuery, hle, get_date_range,
          connect_to_salesforce_and_run_query, stepFetched]
    | rows records =>
        by_cases hrec : records = [] <;>
          simp [ensureFresh, hauth, updateQuery, hle, get_date_range,
            connect_to_salesforce_and_run_query, stepFetched, hrec]

/-- C7 witness: an authenticated session with the custom selector and
unchanged valid dates still fetches on an explicit update. -/
theorem c7_preset_idempotent_fetch_witness :
    stepFetched (ensureFresh
      { authenticated := true
        df := []
        query := none
        total_count := 0
        selected_period := .week
        period_start := none
        period_end := none
        date_filter := .d90 } Selector.custom 0 5 0 (.rows [])) = true :=
  (c7_preset_idempotent_fetch.2.2 _ 0 5 0 (.rows []) rfl (by norm_num))

/-- C8 (confirmed): when the remote collaborator returns zero rows, the cycle
reports the no-data condition and leaves the session state — records and
authenticated flag included — exactly as it was before the call; in the
first-fetch case the session therefore remains unauthenticated. -/
theorem c8_empty_result (st : SessionState) (sel : Selector) (cs ce now : Int) :
    (st.authenticated = false →
      stepState (ensureFresh st sel cs ce now (.rows [])) = some st ∧
      stepFetched (ensureFresh st sel cs ce now (.rows [])) = true ∧
      Report.noData ∈ stepReports (ensureFresh st sel cs ce now (.rows []))) ∧
    (∀ st' fetched reports,
      ensureFresh st sel cs ce now (.rows []) = .ok st' fetched reports →
      st' = st ∧ (fetched = true → Report.noData ∈ reports)) := by
  constructor
  · intro hauth
    by_cases hle : cs ≤ ce <;> cases sel <;>
      simp [ensureFresh, hauth, authRunQuery, get_date_range,
        connect_to_salesforce_and_run_query, stepState, stepFetched, stepReports, hle]
  · intro st' fetched reports hstep
    simp only [ensureFresh, authRunQuery, updateQuery,
      connect_to_salesforce_and_run_query, reduceIte] at hstep
    repeat' split at hstep
    all_goals simp only [reduceCtorEq, StepOut.ok.injEq] at hstep
    all_goals obtain ⟨h1, h2, h3⟩ := hstep
    all_goals subst h1
    all_goals subst h3
    all_goals refine ⟨rfl, fun hx => ?_⟩
    all_goals subst h2
    all_goals try simp
    all_goals exact absurd hx (by decide)

/-- C8 witness at a concrete unauthenticated empty-result call. -/
theorem c8_empty_result_witness :
    initState = initState ∧ (true = true → Report.noData ∈ [Report.noData]) :=
  (c8_empty_result initState .week 0 0 0).2 initState true [Report.noData] (by decide)

/-- C10 (confirmed): the invariant `total_count = length records` holds for
the initial session state and is preserved by every interaction cycle: both
handlers write `total_count` and the record set together from the same
fetched result. -/
theorem c10_total_count_invariant :
    initState.total_count = initState.df.length ∧
    (∀ (st : SessionState) (sel : Selector) (cs ce now : Int) (outcome : SFOutcome)
        (st' : SessionState) (fetched : Bool) (reports : List Report),
      st.total_count = st.df.length →
      ensureFresh st sel cs ce now outcome = .ok st' fetched reports →
      st'.total_count = st'.df.length) := by
  refine ⟨rfl, ?_⟩
  intro st sel cs ce now outcome st' fetched reports hinv hstep
  simp only [ensureFresh, authRunQuery, updateQuery] at hstep
  repeat' split at hstep
  all_goals simp only [reduceCtorEq, StepOut.ok.injEq] at hstep
  all_goals obtain ⟨h1, h2, h3⟩ := hstep
  all_goals subst h1
  all_goals simp_all

/-- C10 witness: the invariant is preserved across a concrete empty-result
cycle. -/
theorem c10_total_count_invariant_witness :
    initState.total_count = initState.df.length :=
  c10_total_count_invariant.2 initState .week 0 0 0 (.rows []) initState true
    [Report.noData] rfl (by decide)

/-- C1 counterexample: with an unauthenticated session, a custom range whose
start (day 100) is after its end (day 50), and a non-empty collaborator
result, the cycle reports InvalidDateRange but nevertheless performs the
remote fetch (with the 90-day fallback range) and mutates the Session State
(the authenticated flag becomes true) — contradicting the claim that no fetch
is attempted and the state is left unchanged. -/
theorem c1_counterexample :
    stepFetched (ensureFresh initState Selector.custom 100 50 0
      (.rows [⟨0, "Personal Lines - New Business", "n", "i"⟩])) = true ∧
    stepAuth (ensureFresh initState Selector.custom 100 50 0
      (.rows [⟨0, "Personal Lines - New Business", "n", "i"⟩])) = some true ∧
    stepReports (ensureFresh initState Selector.custom 100 50 0
      (.rows [⟨0, "Personal Lines - New Business", "n", "i"⟩])) =
      [Report.invalidDateRange] := by
  decide

/-- C1 (corrected): for a custom selector with start after end, the cycle
reports InvalidDateRange but still attempts a remote fetch with a fallback
period — the Last-90-days preset on first fetch (so the state may change, and
does change when the fallback fetch returns rows), the cached named preset on
an update — except that an update whose cached selector is itself custom
raises an uncaught error after reporting, with no fetch and no state change. -/
theorem c1_amended_fallback (cs ce now : Int) (st : SessionState) (o : SFOutcome)
    (hinv : ce < cs) :
    (st.authenticated = false →
      stepFetched (ensureFresh st Selector.custom cs ce now o) = true ∧
      Report.invalidDateRange ∈ stepReports (ensureFresh st Selector.custom cs ce now o) ∧
      (∀ records, o = .rows records → records ≠ [] →
        stepAuth (ensureFresh st Selector.custom cs ce now o) = some true)) ∧
    (st.authenticated = true → st.selected_period ≠ Selector.custom →
      stepFetched (ensureFresh st Selector.custom cs ce now o) = true ∧
      Report.invalidDateRange ∈ stepReports (ensureFresh st Selector.custom cs ce now o)) ∧
    (st.authenticated = true → st.selected_period = Selector.custom →
      ensureFresh st Selector.custom cs ce now o = .raised [Report.invalidDateRange]) := by
  have hle : ¬ (cs ≤ ce) := by omega
  refine ⟨?_, ?_, ?_⟩
  · intro hauth
    refine ⟨?_, ?_, ?_⟩
    · cases o with
      | failure msg =>
          simp [ensureFresh, hauth, authRunQuery, hle, get_date_range,
            connect_to_salesforce_and_run_query, stepFetched]
      | rows records =>
          by_cases hrec : records = [] <;>
            simp [ensureFresh, hauth, authRunQuery, hle, get_date_range,
              connect_to_salesforce_and_run_query, stepFetched, hrec]
    · cases o with
      | failure msg =>
          simp [ensureFresh, hauth, authRunQuery, hle, get_date_range,
            connect_to_salesforce_and_run_query, stepReports]
      | rows records =>
          by_cases hrec : records = [] <;>
            simp [ensureFresh, hauth, authRunQuery, hle, get_date_range,
              connect_to_salesforce_and_run_query, stepReports, hrec]
    · intro records ho hrec
      subst ho
      simp [ensureFresh, hauth, authRunQuery, hle, get_date_range,
        connect_to_salesforce_and_run_query, stepAuth, hrec]
  · intro hauth hsp
    cases hsel : st.selected_period
    case custom => exact absurd hsel hsp
    all_goals constructor
    all_goals cases o with
      | failure msg =>
          simp [ensureFresh, hauth, updateQuery, hle, hsel, get_date_range,
            connect_to_salesforce_and_run_query, stepFetched, stepReports]
      | rows records =>
          by_cases hrec : records = [] <;>
            simp [ensureFresh, hauth, updateQuery, hle, hsel, get_date_range,
              connect_to_salesforce_and_run_query, stepFetched, stepReports, hrec]
  · intro hauth hsp
    simp [ensureFresh, hauth, updateQuery, hle, hsp, get_date_range]

/-- C1 witness: the amended behaviour at a concrete invalid custom range. -/
theorem c1_amended_fallback_witness :
    stepFetched (ensureFresh initState Selector.custom 100 50 0 (.rows [])) = true ∧
    Report.invalidDateRange ∈
      stepReports (ensureFresh initState Selector.custom 100 50 0 (.rows [])) :=
  ⟨((c1_amended_fallback 100 50 0 initState (.rows []) (by norm_num)).1 rfl).1,
    ((c1_amended_fallback 100 50 0 initState (.rows []) (by norm_num)).1 rfl).2.1⟩

/-- C5 counterexample: at the reference instant 2024-12-31 23:59:59.999999,
the quarter resolution assigns the instant to Q4 of 2024, yet the instant
lies strictly after Q4's resolved end (Dec 31 23:59:59.000000) and inside
none of the four quarter ranges of its year — the ranges do not contiguously
cover the year at microsecond granularity. -/
theorem c5_counterexample :
    yearOf (mkDT 2024 12 31 23 59 59 999999) = 2024 ∧
    (monthOf (mkDT 2024 12 31 23 59 59 999999) - 1) / 3 + 1 = 4 ∧
    resolvedEnd (get_date_range (.preset .quarter) (mkDT 2024 12 31 23 59 59 999999)) =
      some (quarterEnd 2024 4) ∧
    quarterEnd 2024 4 < mkDT 2024 12 31 23 59 59 999999 ∧
    quarterStart 2024 1 ≤ mkDT 2024 12 31 23 59 59 999999 ∧
    ¬ (quarterStart 2024 1 ≤ mkDT 2024 12 31 23 59 59 999999 ∧
       mkDT 2024 12 31 23 59 59 999999 ≤ quarterEnd 2024 1) ∧
    ¬ (quarterStart 2024 2 ≤ mkDT 2024 12 31 23 59 59 999999 ∧
       mkDT 2024 12 31 23 59 59 999999 ≤ quarterEnd 2024 2) ∧
    ¬ (quarterStart 2024 3 ≤ mkDT 2024 12 31 23 59 59 999999 ∧
       mkDT 2024 12 31 23 59 59 999999 ≤ quarterEnd 2024 3) ∧
    ¬ (quarterStart 2024 4 ≤ mkDT 2024 12 31 23 59 59 999999 ∧
       mkDT 2024 12 31 23 59 59 999999 ≤ quarterEnd 2024 4) := by
  decide

/-- C5 (corrected, amended): the CurrentQuarter resolution assigns every
reference instant to one of exactly four ranges of its civil year that are
pairwise non-overlapping and contiguous at one-second granularity — each
quarter's end is exactly one second before the next quarter's start, Q1
starts Jan 1 00:00:00, and Q4 ends Dec 31 23:59:59 of the instant's year —
and the instant's truncation to whole seconds (though not necessarily the
instant itself) lies within its assigned range. -/
theorem c5_amended_quarter_partition (t : Int) :
    (1 ≤ (monthOf t - 1) / 3 + 1 ∧ (monthOf t - 1) / 3 + 1 ≤ 4) ∧
    get_date_range (.preset .quarter) t =
      some (isoformat (quarterStart (yearOf t) ((monthOf t - 1) / 3 + 1)),
        isoformat (quarterEnd (yearOf t) ((monthOf t - 1) / 3 + 1)),
        quarterStart (yearOf t) ((monthOf t - 1) / 3 + 1),
        quarterEnd (yearOf t) ((monthOf t - 1) / 3 + 1)) ∧
    quarterStart (yearOf t) ((monthOf t - 1) / 3 + 1) ≤ t ∧
    secondFloor t ≤ quarterEnd (yearOf t) ((monthOf t - 1) / 3 + 1) ∧
    (∀ q : Int, 1 ≤ q → q ≤ 3 →
      quarterEnd (yearOf t) q + 1000000 = quarterStart (yearOf t) (q + 1)) ∧
    (∀ q : Int, 1 ≤ q → q ≤ 4 → quarterStart (yearOf t) q ≤ quarterEnd (yearOf t) q) ∧
    (∀ qa qb : Int, 1 ≤ qa → qa < qb → qb ≤ 4 →
      quarterEnd (yearOf t) qa < quarterStart (yearOf t) qb) ∧
    quarterStart (yearOf t) 1 = mkDT (yearOf t) 1 1 0 0 0 0 ∧
    quarterEnd (yearOf t) 4 = mkDT (yearOf t) 12 31 23 59 59 0 ∧
    quarterEnd (yearOf t) 4 + 1000000 = mkDT (yearOf t + 1) 1 1 0 0 0 0 := by
  obtain ⟨hm1, hm2⟩ := civil_month_range (dayIndex t)
  obtain ⟨hA, hB, hC⟩ := quarter_day_pos (dayIndex t)
  obtain ⟨hb1, hb2, hb3, hb4, hb5⟩ := quarter_boundaries (yearOf t)
  have hd1 : dayIndex t * 86400000000 ≤ t ∧ t < dayIndex t * 86400000000 + 86400000000 := by
    constructor <;> (unfold dayIndex usPerDay; omega)
  refine ⟨⟨?_, ?_⟩, rfl, ?_, ?_, ?_, ?_, ?_, ?_, ?_, ?_⟩
  · unfold monthOf; omega
  · unfold monthOf; omega
  · unfold quarterStart mkDT timeOfDayMicro usPerDay yearOf monthOf
    omega
  · have hq4 : (civilFromDays (dayIndex t)).2.1 ≤ 9 ∨ 10 ≤ (civilFromDays (dayIndex t)).2.1 := by
      omega
    rcases hq4 with hq | hq
    · have hB' := hB (by omega)
      unfold quarterEnd secondFloor mkDT timeOfDayMicro usPerDay yearOf monthOf
      rw [if_pos (by omega)]
      omega
    · have hC' := hC (by omega)
      unfold quarterEnd secondFloor mkDT timeOfDayMicro usPerDay yearOf monthOf
      rw [if_neg (by omega)]
      omega
  · intro q h1 h3
    have hqv : q = 1 ∨ q = 2 ∨ q = 3 := by omega
    rcases hqv with rfl | rfl | rfl <;>
      (unfold quarterEnd quarterStart mkDT timeOfDayMicro usPerDay
       norm_num)
  · intro q h1 h4
    have hqv : q = 1 ∨ q = 2 ∨ q = 3 ∨ q = 4 := by omega
    rcases hqv with rfl | rfl | rfl | rfl <;>
      (unfold quarterStart quarterEnd mkDT timeOfDayMicro usPerDay
       norm_num <;> omega)
  · intro qa qb h1 hlt h4
    have hv : (qa = 1 ∧ qb = 2) ∨ (qa = 1 ∧ qb = 3) ∨ (qa = 1 ∧ qb = 4) ∨
        (qa = 2 ∧ qb = 3) ∨ (qa = 2 ∧ qb = 4) ∨ (qa = 3 ∧ qb = 4) := by omega
    rcases hv with ⟨rfl, rfl⟩ | ⟨rfl, rfl⟩ | ⟨rfl, rfl⟩ | ⟨rfl, rfl⟩ | ⟨rfl, rfl⟩ |
        ⟨rfl, rfl⟩ <;>
      (unfold quarterStart quarterEnd mkDT timeOfDayMicro usPerDay
       norm_num <;> omega)
  · norm_num [quarterStart]
  · norm_num [quarterEnd]
  · unfold quarterEnd mkDT timeOfDayMicro usPerDay
    norm_num
    omega

/-- C5 witness: contiguity instantiated at the epoch's year, quarter 1. -/
theorem c5_amended_quarter_partition_witness :
    quarterEnd (yearOf 0) 1 + 1000000 = quarterStart (yearOf 0) (1 + 1) :=
  (c5_amended_quarter_partition 0).2.2.2.2.1 1 (by norm_num) (by norm_num)

end NewOppDash
